import Mathlib

/-!
Shallow embedding of the Ajo rotating-savings contract
(`src/contracts/ajo/src/{contract,types,storage,errors,events}.rs`).

Machine integers are embedded as `Nat` (u32/u64) and `Int` (i128); the
contract's arithmetic never overflows these ranges for any value that can
be stored by its own operations, so overflow wrapping is not modelled.
Addresses are opaque; we model them as `Nat`.  The host facilities the
source treats as external collaborators (clock, authorization, event
delivery) are modelled as: an explicit timestamp parameter per call,
authorization always granted (the spec assumes the capability is supplied
by the caller), and an explicit event list in each operation's output.

The modules `utils.rs` and `pausable.rs` are declared in `lib.rs` but are
not present under `src/`; the definitions below that carry a
`Modelled from the spec:` doc comment reconstruct those missing helpers
from the specification's own words.
-/

namespace Ajo

/-- Decidable equality of call results, used to evaluate concrete runs. -/
instance instDecEqExcept {ε α : Type} [DecidableEq ε] [DecidableEq α] :
    DecidableEq (Except ε α)
  | .ok a, .ok b => if h : a = b then .isTrue (by rw [h]) else .isFalse (by simp [h])
  | .ok _, .error _ => .isFalse (by simp)
  | .error _, .ok _ => .isFalse (by simp)
  | .error a, .error b => if h : a = b then .isTrue (by rw [h]) else .isFalse (by simp [h])

abbrev Addr := Nat

/-- Lifecycle state of a group (`types.rs`, `GroupState`). -/
inductive GroupState where
  | Active
  | Cancelled
  | Complete
  deriving DecidableEq

/-- Reason for a refund (`types.rs`, `RefundReason`). -/
inductive RefundReason where
  | CreatorCancellation
  | MemberVote
  | EmergencyRefund
  deriving DecidableEq

/-- An Ajo group (`types.rs`, `Group`). -/
structure Group where
  id : Nat
  creator : Addr
  contribution_amount : Int
  cycle_duration : Nat
  max_members : Nat
  members : List Addr
  current_cycle : Nat
  payout_index : Nat
  created_at : Nat
  cycle_start_time : Nat
  is_complete : Bool
  grace_period : Nat
  penalty_rate : Nat
  state : GroupState
  deriving DecidableEq

/-- A member's contribution for one cycle (`types.rs`, `ContributionRecord`). -/
structure ContributionRecord where
  member : Addr
  group_id : Nat
  cycle : Nat
  has_paid : Bool
  timestamp : Nat
  is_late : Bool
  penalty_amount : Int
  deriving DecidableEq

/-- Running penalty statistics per (group, member) (`types.rs`, `MemberPenaltyRecord`). -/
structure MemberPenaltyRecord where
  member : Addr
  group_id : Nat
  late_count : Nat
  on_time_count : Nat
  total_penalties : Int
  reliability_score : Nat
  deriving DecidableEq

/-- A refund request under member vote (`types.rs`, `RefundRequest`). -/
structure RefundRequest where
  group_id : Nat
  requester : Addr
  created_at : Nat
  voting_deadline : Nat
  votes_for : Nat
  votes_against : Nat
  executed : Bool
  approved : Bool
  deriving DecidableEq

/-- A member's vote on a refund request (`types.rs`, `RefundVote`). -/
structure RefundVote where
  group_id : Nat
  voter : Addr
  in_favor : Bool
  timestamp : Nat
  deriving DecidableEq

/-- A processed refund (`types.rs`, `RefundRecord`). -/
structure RefundRecord where
  group_id : Nat
  member : Addr
  amount : Int
  timestamp : Nat
  reason : RefundReason
  deriving DecidableEq

/-- Error codes (`errors.rs`, `AjoError`). -/
inductive AjoError where
  | GroupNotFound
  | MaxMembersExceeded
  | AlreadyMember
  | NotMember
  | AlreadyContributed
  | IncompleteContributions
  | AlreadyReceivedPayout
  | GroupComplete
  | ContributionAmountZero
  | CycleDurationZero
  | MaxMembersBelowMinimum
  | MaxMembersAboveLimit
  | InsufficientBalance
  | TransferFailed
  | NoMembers
  | Unauthorized
  | OutsideCycleWindow
  | ContributionAmountNegative
  | GroupCancelled
  | AlreadyInitialized
  | ContractPaused
  | UnauthorizedPause
  | UnauthorizedUnpause
  | GracePeriodExpired
  | InvalidGracePeriod
  | InvalidPenaltyRate
  | MetadataTooLong
  | CannotCancelAfterPayout
  | OnlyCreatorCanCancel
  | RefundRequestExists
  | NoRefundRequest
  | AlreadyVoted
  | VotingPeriodActive
  | VotingPeriodEnded
  | RefundNotApproved
  | RefundAlreadyExecuted
  | CycleNotExpired
  deriving DecidableEq

/-- Notifications published by the contract (`events.rs`); the trailing
`Nat` of `refundProcessed` is the numeric reason code the source passes. -/
inductive Event where
  | groupCreated (gid : Nat) (creator : Addr) (amount : Int) (maxMembers : Nat)
  | memberJoined (gid : Nat) (member : Addr)
  | contributionMade (gid : Nat) (member : Addr) (cycle : Nat) (amount : Int)
  | lateContribution (gid : Nat) (member : Addr) (cycle : Nat) (amount : Int) (penalty : Int)
  | payoutExecuted (gid : Nat) (recipient : Addr) (cycle : Nat) (amount : Int)
  | penaltyDistributed (gid : Nat) (recipient : Addr) (cycle : Nat) (base : Int) (bonus : Int)
  | groupCompleted (gid : Nat)
  | groupCancelled (gid : Nat) (creator : Addr) (memberCount : Nat) (refundPerMember : Int)
  | refundRequested (gid : Nat) (requester : Addr) (deadline : Nat)
  | refundVoteCast (gid : Nat) (voter : Addr) (inFavor : Bool)
  | refundProcessed (gid : Nat) (member : Addr) (amount : Int) (code : Nat)
  | emergencyRefunded (gid : Nat) (admin : Addr) (total : Int)
  deriving DecidableEq

/-- Voting period duration in seconds, 7 days (`types.rs`, `VOTING_PERIOD`). -/
def VOTING_PERIOD : Nat := 604800

/-- Minimum approval percentage for a refund (`types.rs`, `REFUND_APPROVAL_THRESHOLD`). -/
def REFUND_APPROVAL_THRESHOLD : Nat := 51

/-- Seven days in seconds, the maximum grace period (spec section 4.1). -/
def SEVEN_DAYS : Nat := 604800

/-- The persistent key space of the contract (`storage.rs` and spec section 6):
singleton admin, pause flag, group-id counter, and the per-key maps. -/
structure Store where
  admin : Option Addr
  paused : Bool
  groupCounter : Nat
  groups : Nat → Option Group
  contributions : Nat → Nat → Addr → Bool
  contribDetails : Nat → Nat → Addr → Option ContributionRecord
  payoutReceived : Nat → Addr → Bool
  memberPenalties : Nat → Addr → Option MemberPenaltyRecord
  penaltyPools : Nat → Nat → Int
  refundRequests : Nat → Option RefundRequest
  refundVotes : Nat → Addr → Option RefundVote
  refundRecords : Nat → Addr → Option RefundRecord

/-- The store of a freshly deployed contract: nothing persisted yet. -/
def initialStore : Store where
  admin := none
  paused := false
  groupCounter := 0
  groups := fun _ => none
  contributions := fun _ _ _ => false
  contribDetails := fun _ _ _ => none
  payoutReceived := fun _ _ => false
  memberPenalties := fun _ _ => none
  penaltyPools := fun _ _ => 0
  refundRequests := fun _ => none
  refundVotes := fun _ _ => none
  refundRecords := fun _ _ => none

/-- Result of one contract invocation: the returned value or error, the
store after the call, and the events published during it. -/
structure Out (α : Type) where
  res : Except AjoError α
  store : Store
  events : List Event

/-- `storage::store_group`. -/
def store_group (s : Store) (gid : Nat) (g : Group) : Store :=
  { s with groups := fun k => if k = gid then some g else s.groups k }

/-- `storage::store_contribution` (boolean shadow flag). -/
def store_contribution (s : Store) (gid cycle : Nat) (m : Addr) (paid : Bool) : Store :=
  { s with contributions := fun a b c =>
      if a = gid ∧ b = cycle ∧ c = m then paid else s.contributions a b c }

/-- `storage::store_contribution_detail`. -/
def store_contribution_detail (s : Store) (gid cycle : Nat) (m : Addr)
    (r : ContributionRecord) : Store :=
  { s with contribDetails := fun a b c =>
      if a = gid ∧ b = cycle ∧ c = m then some r else s.contribDetails a b c }

/-- `storage::mark_payout_received`. -/
def mark_payout_received (s : Store) (gid : Nat) (m : Addr) : Store :=
  { s with payoutReceived := fun a c =>
      if a = gid ∧ c = m then true else s.payoutReceived a c }

/-- `storage::store_member_penalty`. -/
def store_member_penalty (s : Store) (gid : Nat) (m : Addr)
    (r : MemberPenaltyRecord) : Store :=
  { s with memberPenalties := fun a c =>
      if a = gid ∧ c = m then some r else s.memberPenalties a c }

/-- `storage::add_to_penalty_pool`. -/
def add_to_penalty_pool (s : Store) (gid cycle : Nat) (penalty : Int) : Store :=
  { s with penaltyPools := fun a b =>
      if a = gid ∧ b = cycle then s.penaltyPools gid cycle + penalty
      else s.penaltyPools a b }

/-- `storage::store_refund_request`. -/
def store_refund_request (s : Store) (gid : Nat) (r : RefundRequest) : Store :=
  { s with refundRequests := fun k => if k = gid then some r else s.refundRequests k }

/-- `storage::store_refund_vote`. -/
def store_refund_vote (s : Store) (gid : Nat) (m : Addr) (v : RefundVote) : Store :=
  { s with refundVotes := fun a c =>
      if a = gid ∧ c = m then some v else s.refundVotes a c }

/-- `storage::store_refund_record`. -/
def store_refund_record (s : Store) (gid : Nat) (m : Addr) (r : RefundRecord) : Store :=
  { s with refundRecords := fun a c =>
      if a = gid ∧ c = m then some r else s.refundRecords a c }

/-- `storage::get_group` (read operation, `contract.rs` line 208). -/
def get_group (s : Store) (gid : Nat) : Option Group :=
  s.groups gid

/-- `storage::has_contributed`. -/
def has_contributed (s : Store) (gid cycle : Nat) (m : Addr) : Bool :=
  s.contributions gid cycle m

/-- `storage::get_cycle_penalty_pool` (defaults to 0). -/
def get_cycle_penalty_pool (s : Store) (gid cycle : Nat) : Int :=
  s.penaltyPools gid cycle

/-- Modelled from the spec: `utils::validate_group_params` (module `utils.rs`
is missing from `src/`).  Spec section 4.1: contribution_amount > 0 with the
error chosen by sign, cycle_duration > 0, 2 ≤ max_members ≤ 100, in order. -/
def validate_group_params (amount : Int) (duration maxM : Nat) : Except AjoError Unit :=
  if amount = 0 then .error .ContributionAmountZero
  else if amount < 0 then .error .ContributionAmountNegative
  else if duration = 0 then .error .CycleDurationZero
  else if maxM < 2 then .error .MaxMembersBelowMinimum
  else if maxM > 100 then .error .MaxMembersAboveLimit
  else .ok ()

/-- Modelled from the spec: `utils::validate_penalty_params` (missing
`utils.rs`).  Spec section 4.1: grace_period ≤ 7 days, penalty_rate ≤ 100. -/
def validate_penalty_params (grace rate : Nat) : Except AjoError Unit :=
  if grace > SEVEN_DAYS then .error .InvalidGracePeriod
  else if rate > 100 then .error .InvalidPenaltyRate
  else .ok ()

/-- Modelled from the spec: `pausable::ensure_not_paused` (module
`pausable.rs` is missing from `src/`).  Spec sections 2 and 6: a simple
boolean gate that rejects every gated call while the flag is set. -/
def ensure_not_paused (s : Store) : Except AjoError Unit :=
  if s.paused then .error .ContractPaused else .ok ()

/-- Modelled from the spec: `pausable::pause` / `pausable::unpause` effect on
the flag (missing `pausable.rs`); admin authorization is the external
capability, assumed granted. -/
def setPaused (b : Bool) (s : Store) : Store :=
  { s with paused := b }

/-- Modelled from the spec: `utils::is_member` (missing `utils.rs`) —
membership in the ordered member list. -/
def is_member (members : List Addr) (m : Addr) : Bool :=
  decide (m ∈ members)

/-- Modelled from the spec: `utils::get_grace_period_end` (missing
`utils.rs`): `cycle_start_time + cycle_duration + grace_period`. -/
def get_grace_period_end (g : Group) : Nat :=
  g.cycle_start_time + g.cycle_duration + g.grace_period

/-- Modelled from the spec: `utils::is_within_grace_period` (missing
`utils.rs`).  Spec section 4.2 and `types.rs` line 206: after the cycle end
but not beyond the grace period end (both bounds as in section 4.2). -/
def is_within_grace_period (g : Group) (t : Nat) : Bool :=
  g.cycle_start_time + g.cycle_duration ≤ t ∧ t ≤ get_grace_period_end g

/-- Modelled from the spec: `utils::check_contribution_timing` (missing
`utils.rs`).  Spec section 4.2: on-time (no penalty) strictly before the
cycle end; late with penalty `contribution_amount * penalty_rate / 100`
up to the grace period end; past that, late with no penalty computed (the
caller rejects this case with GracePeriodExpired). -/
def check_contribution_timing (g : Group) (t : Nat) : Bool × Int :=
  if t < g.cycle_start_time + g.cycle_duration then (false, 0)
  else if t ≤ get_grace_period_end g then
    (true, Int.tdiv (g.contribution_amount * (g.penalty_rate : Int)) 100)
  else (true, 0)

/-- Modelled from the spec: `utils::calculate_payout_amount` (missing
`utils.rs`).  Spec section 4.3: base payout =
`contribution_amount * members.length`. -/
def calculate_payout_amount (g : Group) : Int :=
  g.contribution_amount * (g.members.length : Int)

/-- Modelled from the spec: `utils::all_members_contributed` (missing
`utils.rs`).  Spec section 4.3: every current member has a contribution
record for the current cycle (the boolean shadow flag, written together
with the detailed record).  The group id is passed explicitly, as every
storage access in `contract.rs` does. -/
def all_members_contributed (s : Store) (gid : Nat) (g : Group) : Bool :=
  g.members.all (fun m => has_contributed s gid g.current_cycle m)

/-- Modelled from the spec: `utils::update_member_penalty_record` (missing
`utils.rs`).  Spec section 3, MemberPenaltyRecord: increment
late_count/on_time_count, accumulate total_penalties, recompute
reliability_score = on_time/(on_time+late)*100 (100 if no contributions). -/
def update_member_penalty_record (s : Store) (gid : Nat) (m : Addr)
    (isLate : Bool) (penalty : Int) : Store :=
  let old := (s.memberPenalties gid m).getD
    ⟨m, gid, 0, 0, 0, 100⟩
  let lateC := old.late_count + (if isLate then 1 else 0)
  let onTimeC := old.on_time_count + (if isLate then 0 else 1)
  let score := if lateC + onTimeC = 0 then 100 else onTimeC * 100 / (lateC + onTimeC)
  store_member_penalty s gid m
    ⟨m, gid, lateC, onTimeC, old.total_penalties + penalty, score⟩

/-- The refund loop shared by `cancel_group`, `execute_refund` and
`emergency_refund` (`contract.rs` lines 877-894, 1115-1132, 1182-1200):
for each member, in order, with a contribution flag for the given cycle,
store a `RefundRecord` of the full contribution amount and emit a
`refundProcessed` event with the numeric reason `code`; the running total
models `emergency_refund`'s `total_refunded`. -/
def process_refunds (gid cycle : Nat) (amount : Int) (t : Nat) (reason : RefundReason)
    (code : Nat) : List Addr → Store → Store × List Event × Int
  | [], s => (s, [], 0)
  | m :: rest, s =>
    if has_contributed s gid cycle m then
      let s1 := store_refund_record s gid m ⟨gid, m, amount, t, reason⟩
      let out := process_refunds gid cycle amount t reason code rest s1
      (out.1, .refundProcessed gid m amount code :: out.2.1, out.2.2 + amount)
    else process_refunds gid cycle amount t reason code rest s

/-- `AjoContract::initialize` (`contract.rs` lines 30-36): set the admin
exactly once. -/
def initContract (admin : Addr) (s : Store) : Out Unit :=
  match s.admin with
  | some _ => ⟨.error .AlreadyInitialized, s, []⟩
  | none => ⟨.ok (), { s with admin := some admin }, []⟩

/-- `AjoContract::create_group` (`contract.rs` lines 138-192). -/
def create_group (creator : Addr) (amount : Int) (duration maxM grace rate : Nat)
    (t : Nat) (s : Store) : Out Nat :=
  match validate_group_params amount duration maxM with
  | .error e => ⟨.error e, s, []⟩
  | .ok () =>
  match validate_penalty_params grace rate with
  | .error e => ⟨.error e, s, []⟩
  | .ok () =>
  match ensure_not_paused s with
  | .error e => ⟨.error e, s, []⟩
  | .ok () =>
    let gid := s.groupCounter + 1
    let s1 := { s with groupCounter := gid }
    let g : Group :=
      ⟨gid, creator, amount, duration, maxM, [creator], 1, 0, t, t, false, grace, rate, .Active⟩
    ⟨.ok gid, store_group s1 gid g, [.groupCreated gid creator amount maxM]⟩

/-- `AjoContract::join_group` (`contract.rs` lines 250-285). -/
def join_group (member : Addr) (gid : Nat) (_t : Nat) (s : Store) : Out Unit :=
  match ensure_not_paused s with
  | .error e => ⟨.error e, s, []⟩
  | .ok () =>
  match get_group s gid with
  | none => ⟨.error .GroupNotFound, s, []⟩
  | some g =>
  if g.is_complete then ⟨.error .GroupComplete, s, []⟩
  else if is_member g.members member then ⟨.error .AlreadyMember, s, []⟩
  else if g.members.length ≥ g.max_members then ⟨.error .MaxMembersExceeded, s, []⟩
  else
    let g' := { g with members := g.members ++ [member] }
    ⟨.ok (), store_group s gid g', [.memberJoined gid member]⟩

/-- `AjoContract::contribute` (`contract.rs` lines 329-419). -/
def contribute (member : Addr) (gid : Nat) (t : Nat) (s : Store) : Out Unit :=
  match ensure_not_paused s with
  | .error e => ⟨.error e, s, []⟩
  | .ok () =>
  match get_group s gid with
  | none => ⟨.error .GroupNotFound, s, []⟩
  | some g =>
  if g.state = .Cancelled then ⟨.error .GroupCancelled, s, []⟩
  else if g.is_complete then ⟨.error .GroupComplete, s, []⟩
  else if ¬ is_member g.members member then ⟨.error .NotMember, s, []⟩
  else if has_contributed s gid g.current_cycle member then ⟨.error .AlreadyContributed, s, []⟩
  else
    let tim := check_contribution_timing g t
    let isLate := tim.1
    let pen := tim.2
    if isLate ∧ pen = 0 ∧ ¬ is_within_grace_period g t then
      ⟨.error .GracePeriodExpired, s, []⟩
    else
      let cr : ContributionRecord := ⟨member, gid, g.current_cycle, true, t, isLate, pen⟩
      let s1 := store_contribution_detail s gid g.current_cycle member cr
      let s2 := store_contribution s1 gid g.current_cycle member true
      if isLate ∧ pen > 0 then
        let s3 := add_to_penalty_pool s2 gid g.current_cycle pen
        let s4 := update_member_penalty_record s3 gid member true pen
        ⟨.ok (), s4, [.lateContribution gid member g.current_cycle g.contribution_amount pen]⟩
      else
        let s3 := update_member_penalty_record s2 gid member false 0
        ⟨.ok (), s3, [.contributionMade gid member g.current_cycle g.contribution_amount]⟩

/-- `AjoContract::execute_payout` (`contract.rs` lines 482-573). -/
def execute_payout (gid : Nat) (t : Nat) (s : Store) : Out Unit :=
  match ensure_not_paused s with
  | .error e => ⟨.error e, s, []⟩
  | .ok () =>
  match get_group s gid with
  | none => ⟨.error .GroupNotFound, s, []⟩
  | some g =>
  if g.state = .Cancelled then ⟨.error .GroupCancelled, s, []⟩
  else if g.is_complete then ⟨.error .GroupComplete, s, []⟩
  else if ¬ all_members_contributed s gid g then ⟨.error .IncompleteContributions, s, []⟩
  else if t < get_grace_period_end g then ⟨.error .OutsideCycleWindow, s, []⟩
  else
  match g.members.get? g.payout_index with
  | none => ⟨.error .NoMembers, s, []⟩
  | some recipient =>
    let base := calculate_payout_amount g
    let bonus := get_cycle_penalty_pool s gid g.current_cycle
    let total := base + bonus
    let s1 := mark_payout_received s gid recipient
    let evs :=
      (if bonus > 0 then [Event.penaltyDistributed gid recipient g.current_cycle base bonus]
       else []) ++ [Event.payoutExecuted gid recipient g.current_cycle total]
    if g.payout_index + 1 ≥ g.members.length then
      let g' := { g with payout_index := g.payout_index + 1, is_complete := true,
                         state := .Complete }
      ⟨.ok (), store_group s1 gid g', evs ++ [Event.groupCompleted gid]⟩
    else
      let g' := { g with payout_index := g.payout_index + 1,
                         current_cycle := g.current_cycle + 1, cycle_start_time := t }
      ⟨.ok (), store_group s1 gid g', evs⟩

/-- `AjoContract::cancel_group` (`contract.rs` lines 852-910). -/
def cancel_group (creator : Addr) (gid : Nat) (t : Nat) (s : Store) : Out Unit :=
  match ensure_not_paused s with
  | .error e => ⟨.error e, s, []⟩
  | .ok () =>
  match get_group s gid with
  | none => ⟨.error .GroupNotFound, s, []⟩
  | some g =>
  if g.creator ≠ creator then ⟨.error .OnlyCreatorCanCancel, s, []⟩
  else if g.state = .Cancelled then ⟨.error .GroupCancelled, s, []⟩
  else if g.state = .Complete then ⟨.error .GroupComplete, s, []⟩
  else if g.payout_index > 0 then ⟨.error .CannotCancelAfterPayout, s, []⟩
  else
    let out := process_refunds gid g.current_cycle g.contribution_amount t
      .CreatorCancellation 0 g.members s
    let g' := { g with state := .Cancelled }
    ⟨.ok (), store_group out.1 gid g',
      out.2.1 ++ [Event.groupCancelled gid creator g.members.length g.contribution_amount]⟩

/-- `AjoContract::request_refund` (`contract.rs` lines 933-983). -/
def request_refund (requester : Addr) (gid : Nat) (t : Nat) (s : Store) : Out Unit :=
  match ensure_not_paused s with
  | .error e => ⟨.error e, s, []⟩
  | .ok () =>
  match get_group s gid with
  | none => ⟨.error .GroupNotFound, s, []⟩
  | some g =>
  if ¬ is_member g.members requester then ⟨.error .NotMember, s, []⟩
  else if g.state = .Cancelled then ⟨.error .GroupCancelled, s, []⟩
  else if g.state = .Complete then ⟨.error .GroupComplete, s, []⟩
  else if t ≤ get_grace_period_end g then ⟨.error .CycleNotExpired, s, []⟩
  else if (s.refundRequests gid).isSome then ⟨.error .RefundRequestExists, s, []⟩
  else
    let r : RefundRequest := ⟨gid, requester, t, t + VOTING_PERIOD, 0, 0, false, false⟩
    ⟨.ok (), store_refund_request s gid r, [.refundRequested gid requester (t + VOTING_PERIOD)]⟩

/-- `AjoContract::vote_refund` (`contract.rs` lines 1005-1057). -/
def vote_refund (voter : Addr) (gid : Nat) (inFavor : Bool) (t : Nat) (s : Store) : Out Unit :=
  match ensure_not_paused s with
  | .error e => ⟨.error e, s, []⟩
  | .ok () =>
  match get_group s gid with
  | none => ⟨.error .GroupNotFound, s, []⟩
  | some g =>
  if ¬ is_member g.members voter then ⟨.error .NotMember, s, []⟩
  else
  match s.refundRequests gid with
  | none => ⟨.error .NoRefundRequest, s, []⟩
  | some req =>
  if (s.refundVotes gid voter).isSome then ⟨.error .AlreadyVoted, s, []⟩
  else if t > req.voting_deadline then ⟨.error .VotingPeriodEnded, s, []⟩
  else
    let s1 := store_refund_vote s gid voter ⟨gid, voter, inFavor, t⟩
    let req' := if inFavor then { req with votes_for := req.votes_for + 1 }
                else { req with votes_against := req.votes_against + 1 }
    ⟨.ok (), store_refund_request s1 gid req', [.refundVoteCast gid voter inFavor]⟩

/-- The approval percentage `execute_refund` computes (`contract.rs`
lines 1098-1104): votes_for*100/(votes_for+votes_against), or 0 when no
votes were cast. -/
def approval_percentage (req : RefundRequest) : Nat :=
  if req.votes_for + req.votes_against > 0 then
    req.votes_for * 100 / (req.votes_for + req.votes_against)
  else 0

/-- `AjoContract::execute_refund` (`contract.rs` lines 1079-1143). -/
def execute_refund (_executor : Addr) (gid : Nat) (t : Nat) (s : Store) : Out Unit :=
  match ensure_not_paused s with
  | .error e => ⟨.error e, s, []⟩
  | .ok () =>
  match get_group s gid with
  | none => ⟨.error .GroupNotFound, s, []⟩
  | some g =>
  match s.refundRequests gid with
  | none => ⟨.error .NoRefundRequest, s, []⟩
  | some req =>
  if req.executed then ⟨.error .RefundAlreadyExecuted, s, []⟩
  else if t ≤ req.voting_deadline then ⟨.error .VotingPeriodActive, s, []⟩
  else
    if approval_percentage req < REFUND_APPROVAL_THRESHOLD then
      ⟨.error .RefundNotApproved,
        store_refund_request s gid { req with executed := true, approved := false }, []⟩
    else
      let out := process_refunds gid g.current_cycle g.contribution_amount t
        .MemberVote 1 g.members s
      let s1 := store_refund_request out.1 gid { req with executed := true, approved := true }
      let g' := { g with state := .Cancelled }
      ⟨.ok (), store_group s1 gid g', out.2.1⟩

/-- `AjoContract::emergency_refund` (`contract.rs` lines 1162-1210).
Note: unlike every other mutating operation, the source does not call
`ensure_not_paused` here. -/
def emergency_refund (admin : Addr) (gid : Nat) (t : Nat) (s : Store) : Out Unit :=
  match s.admin with
  | none => ⟨.error .Unauthorized, s, []⟩
  | some storedAdmin =>
  if admin ≠ storedAdmin then ⟨.error .Unauthorized, s, []⟩
  else
  match get_group s gid with
  | none => ⟨.error .GroupNotFound, s, []⟩
  | some g =>
  if g.state = .Cancelled then ⟨.error .GroupCancelled, s, []⟩
  else
    let out := process_refunds gid g.current_cycle g.contribution_amount t
      .EmergencyRefund 2 g.members s
    let g' := { g with state := .Cancelled }
    ⟨.ok (), store_group out.1 gid g',
      out.2.1 ++ [Event.emergencyRefunded gid admin out.2.2]⟩

/-- The nine public mutating operations of the contract, with their
call-site arguments. -/
inductive AjoOp where
  | createGroup (creator : Addr) (amount : Int) (duration maxM grace rate : Nat)
  | joinGroup (member : Addr) (gid : Nat)
  | contributeOp (member : Addr) (gid : Nat)
  | executePayout (gid : Nat)
  | cancelGroup (creator : Addr) (gid : Nat)
  | requestRefund (requester : Addr) (gid : Nat)
  | voteRefund (voter : Addr) (gid : Nat) (inFavor : Bool)
  | executeRefund (executor : Addr) (gid : Nat)
  | emergencyRefundOp (admin : Addr) (gid : Nat)
  deriving DecidableEq

/-- Dispatch one mutating operation at call time `t`, discarding
`create_group`'s returned id (it equals the new counter value). -/
def step (op : AjoOp) (t : Nat) (s : Store) : Out Unit :=
  match op with
  | .createGroup c a d mm gp pr =>
      let o := create_group c a d mm gp pr t s
      ⟨o.res.map (fun _ => ()), o.store, o.events⟩
  | .joinGroup m gid => join_group m gid t s
  | .contributeOp m gid => contribute m gid t s
  | .executePayout gid => execute_payout gid t s
  | .cancelGroup c gid => cancel_group c gid t s
  | .requestRefund r gid => request_refund r gid t s
  | .voteRefund v gid f => vote_refund v gid f t s
  | .executeRefund e gid => execute_refund e gid t s
  | .emergencyRefundOp a gid => emergency_refund a gid t s

/-- All stores the contract can pass through starting from `s`: any
sequence of public mutating operations, admin initialization, and admin
pause/unpause, at arbitrary call times. -/
inductive ReachableFrom (s : Store) : Store → Prop where
  | refl : ReachableFrom s s
  | step (op : AjoOp) (t : Nat) {u : Store} :
      ReachableFrom s u → ReachableFrom s (step op t u).store
  | admin_init (a : Addr) {u : Store} :
      ReachableFrom s u → ReachableFrom s (initContract a u).store
  | set_pause (b : Bool) {u : Store} :
      ReachableFrom s u → ReachableFrom s (setPaused b u)

/-- Stores reachable from a freshly deployed contract. -/
def Reachable (s : Store) : Prop :=
  ReachableFrom initialStore s

/-- Run a script of operations (with their call times) left to right. -/
def runScript (l : List (AjoOp × Nat)) (s : Store) : Store :=
  l.foldl (fun u p => (step p.1 p.2 u).store) s

theorem ReachableFrom.trans {s u v : Store}
    (h1 : ReachableFrom s u) (h2 : ReachableFrom u v) : ReachableFrom s v := by
  induction h2 with
  | refl => exact h1
  | step op t _ ih => exact .step op t ih
  | admin_init a _ ih => exact .admin_init a ih
  | set_pause b _ ih => exact .set_pause b ih

theorem reachableFrom_runScript (l : List (AjoOp × Nat)) (s : Store) :
    ReachableFrom s (runScript l s) := by
  induction l generalizing s with
  | nil => exact .refl
  | cons p rest ih =>
      have h1 : ReachableFrom s (step p.1 p.2 s).store :=
        ReachableFrom.step p.1 p.2 ReachableFrom.refl
      exact ReachableFrom.trans h1 (ih ((step p.1 p.2 s).store))

@[simp] theorem store_group_groups (s : Store) (gid : Nat) (g : Group) (k : Nat) :
    (store_group s gid g).groups k = if k = gid then some g else s.groups k := rfl

@[simp] theorem store_group_counter (s : Store) (gid : Nat) (g : Group) :
    (store_group s gid g).groupCounter = s.groupCounter := rfl

@[simp] theorem store_group_requests (s : Store) (gid : Nat) (g : Group) :
    (store_group s gid g).refundRequests = s.refundRequests := rfl

@[simp] theorem store_group_records (s : Store) (gid : Nat) (g : Group) :
    (store_group s gid g).refundRecords = s.refundRecords := rfl

@[simp] theorem store_refund_record_groups (s : Store) (gid : Nat) (m : Addr) (r : RefundRecord) :
    (store_refund_record s gid m r).groups = s.groups := rfl

@[simp] theorem store_refund_record_counter (s : Store) (gid : Nat) (m : Addr) (r : RefundRecord) :
    (store_refund_record s gid m r).groupCounter = s.groupCounter := rfl

@[simp] theorem store_refund_record_contributions (s : Store) (gid : Nat) (m : Addr)
    (r : RefundRecord) : (store_refund_record s gid m r).contributions = s.contributions := rfl

@[simp] theorem store_refund_record_requests (s : Store) (gid : Nat) (m : Addr)
    (r : RefundRecord) : (store_refund_record s gid m r).refundRequests = s.refundRequests := rfl

@[simp] theorem store_refund_record_records (s : Store) (gid : Nat) (m : Addr) (r : RefundRecord)
    (k : Nat) (x : Addr) :
    (store_refund_record s gid m r).refundRecords k x =
      if k = gid ∧ x = m then some r else s.refundRecords k x := rfl

@[simp] theorem store_refund_request_groups (s : Store) (gid : Nat) (r : RefundRequest) :
    (store_refund_request s gid r).groups = s.groups := rfl

@[simp] theorem store_refund_request_counter (s : Store) (gid : Nat) (r : RefundRequest) :
    (store_refund_request s gid r).groupCounter = s.groupCounter := rfl

@[simp] theorem store_refund_request_requests (s : Store) (gid : Nat) (r : RefundRequest)
    (k : Nat) : (store_refund_request s gid r).refundRequests k =
      if k = gid then some r else s.refundRequests k := rfl

@[simp] theorem store_refund_request_records (s : Store) (gid : Nat) (r : RefundRequest) :
    (store_refund_request s gid r).refundRecords = s.refundRecords := rfl

@[simp] theorem store_refund_request_contributions (s : Store) (gid : Nat)
    (r : RefundRequest) : (store_refund_request s gid r).refundVotes = s.refundVotes := rfl

@[simp] theorem process_refunds_groups (gid cycle : Nat) (amt : Int) (t : Nat)
    (r : RefundReason) (c : Nat) (ms : List Addr) (s : Store) :
    ((process_refunds gid cycle amt t r c ms s).1).groups = s.groups := by
  induction ms generalizing s with
  | nil => rfl
  | cons m rest ih =>
      simp only [process_refunds]
      split
      · rw [ih]; rfl
      · exact ih s

@[simp] theorem process_refunds_counter (gid cycle : Nat) (amt : Int) (t : Nat)
    (r : RefundReason) (c : Nat) (ms : List Addr) (s : Store) :
    ((process_refunds gid cycle amt t r c ms s).1).groupCounter = s.groupCounter := by
  induction ms generalizing s with
  | nil => rfl
  | cons m rest ih =>
      simp only [process_refunds]
      split
      · rw [ih]; rfl
      · exact ih s

@[simp] theorem process_refunds_contributions (gid cycle : Nat) (amt : Int) (t : Nat)
    (r : RefundReason) (c : Nat) (ms : List Addr) (s : Store) :
    ((process_refunds gid cycle amt t r c ms s).1).contributions = s.contributions := by
  induction ms generalizing s with
  | nil => rfl
  | cons m rest ih =>
      simp only [process_refunds]
      split
      · rw [ih]; rfl
      · exact ih s

@[simp] theorem process_refunds_requests (gid cycle : Nat) (amt : Int) (t : Nat)
    (r : RefundReason) (c : Nat) (ms : List Addr) (s : Store) :
    ((process_refunds gid cycle amt t r c ms s).1).refundRequests = s.refundRequests := by
  induction ms generalizing s with
  | nil => rfl
  | cons m rest ih =>
      simp only [process_refunds]
      split
      · rw [ih]; rfl
      · exact ih s

/-- Effect of the shared refund loop on refund records: every listed member
with a contribution flag for the cycle gets the fresh record, everything
else is untouched. -/
theorem process_refunds_records (gid cycle : Nat) (amt : Int) (t : Nat)
    (r : RefundReason) (c : Nat) (ms : List Addr) (s : Store) (k : Nat) (x : Addr) :
    ((process_refunds gid cycle amt t r c ms s).1).refundRecords k x =
    (if k = gid ∧ x ∈ ms ∧ s.contributions gid cycle x = true
     then some ⟨gid, x, amt, t, r⟩ else s.refundRecords k x) := by
  induction ms generalizing s with
  | nil => simp [process_refunds]
  | cons m rest ih =>
      simp only [process_refunds, has_contributed]
      split
      · rw [ih]
        by_cases hk : k = gid <;> by_cases hx : x = m <;>
          by_cases hmem : x ∈ rest <;> by_cases hc : s.contributions gid cycle x = true <;>
          subst_eqs <;> simp_all [store_refund_record]
      · rw [ih]
        by_cases hk : k = gid <;> by_cases hx : x = m <;>
          by_cases hmem : x ∈ rest <;> by_cases hc : s.contributions gid cycle x = true <;>
          subst_eqs <;> simp_all

/-- Any error return of `create_group` writes nothing. -/
theorem create_group_err {c : Addr} {a : Int} {d mm gp pr t : Nat} {s : Store} {e : AjoError}
    (h : (create_group c a d mm gp pr t s).res = .error e) :
    (create_group c a d mm gp pr t s).store = s := by
  simp only [create_group, ensure_not_paused, validate_group_params,
    validate_penalty_params] at h ⊢
  repeat' split at h
  all_goals simp_all

/-- Any error return of `join_group` writes nothing. -/
theorem join_group_err {m : Addr} {gid t : Nat} {s : Store} {e : AjoError}
    (h : (join_group m gid t s).res = .error e) :
    (join_group m gid t s).store = s := by
  simp only [join_group, ensure_not_paused] at h ⊢
  repeat' split at h
  all_goals simp_all

/-- Any error return of `contribute` writes nothing. -/
theorem contribute_err {m : Addr} {gid t : Nat} {s : Store} {e : AjoError}
    (h : (contribute m gid t s).res = .error e) :
    (contribute m gid t s).store = s := by
  simp only [contribute, ensure_not_paused] at h ⊢
  repeat' split at h
  all_goals simp_all

/-- Any error return of `execute_payout` writes nothing. -/
theorem execute_payout_err {gid t : Nat} {s : Store} {e : AjoError}
    (h : (execute_payout gid t s).res = .error e) :
    (execute_payout gid t s).store = s := by
  simp only [execute_payout, ensure_not_paused] at h ⊢
  repeat' split at h
  all_goals try (split <;> rfl)
  all_goals simp_all

/-- Any error return of `cancel_group` writes nothing. -/
theorem cancel_group_err {c : Addr} {gid t : Nat} {s : Store} {e : AjoError}
    (h : (cancel_group c gid t s).res = .error e) :
    (cancel_group c gid t s).store = s := by
  simp only [cancel_group, ensure_not_paused] at h ⊢
  repeat' split at h
  all_goals simp_all

/-- Any error return of `request_refund` writes nothing. -/
theorem request_refund_err {r : Addr} {gid t : Nat} {s : Store} {e : AjoError}
    (h : (request_refund r gid t s).res = .error e) :
    (request_refund r gid t s).store = s := by
  simp only [request_refund, ensure_not_paused] at h ⊢
  repeat' split at h
  all_goals try (split <;> rfl)
  all_goals simp_all

/-- Any error return of `vote_refund` writes nothing. -/
theorem vote_refund_err {v : Addr} {gid : Nat} {f : Bool} {t : Nat} {s : Store} {e : AjoError}
    (h : (vote_refund v gid f t s).res = .error e) :
    (vote_refund v gid f t s).store = s := by
  simp only [vote_refund, ensure_not_paused] at h ⊢
  repeat' split at h
  all_goals simp_all

/-- Any error return of `emergency_refund` writes nothing. -/
theorem emergency_refund_err {a : Addr} {gid t : Nat} {s : Store} {e : AjoError}
    (h : (emergency_refund a gid t s).res = .error e) :
    (emergency_refund a gid t s).store = s := by
  simp only [emergency_refund] at h ⊢
  repeat' split at h
  all_goals simp_all

/-- Any error return of `initContract` writes nothing. -/
theorem initContract_err {a : Addr} {s : Store} {e : AjoError}
    (h : (initContract a s).res = .error e) :
    (initContract a s).store = s := by
  simp only [initContract] at h ⊢
  repeat' split at h
  all_goals simp_all

/-- Error returns of `execute_refund` write nothing, except the
RefundNotApproved branch, which marks the request executed/rejected. -/
theorem execute_refund_err {x : Addr} {gid t : Nat} {s : Store} {e : AjoError}
    (h : (execute_refund x gid t s).res = .error e) :
    (execute_refund x gid t s).store = s ∨
    (e = .RefundNotApproved ∧ ∃ req, s.refundRequests gid = some req ∧ req.executed = false ∧
      (execute_refund x gid t s).store =
        store_refund_request s gid { req with executed := true, approved := false }) := by
  simp only [execute_refund, ensure_not_paused] at h ⊢
  repeat' split at h
  all_goals simp_all
  all_goals rw [if_neg (by omega)]
  all_goals exact Or.inr rfl

/-- A two-member Active group used to exercise `execute_refund`. -/
def c1Group : Group :=
  ⟨1, 1, 5, 10, 2, [1, 2], 1, 0, 0, 0, false, 5, 0, .Active⟩

/-- An unexecuted refund request with one vote against (approval 0%),
whose voting deadline (10) has passed. -/
def c1Request : RefundRequest := ⟨1, 1, 0, 10, 0, 1, false, false⟩

/-- A store holding `c1Group` and `c1Request`. -/
def c1Store : Store :=
  store_refund_request (store_group initialStore 1 c1Group) 1 c1Request

/-- C1, counterexample: `execute_refund` at time 11 on `c1Store` returns the
error RefundNotApproved, yet the persisted refund request is modified
(marked executed), so an error return does not guarantee zero state
change. -/
theorem C1_counterexample :
    (execute_refund 7 1 11 c1Store).res = .error .RefundNotApproved ∧
    (execute_refund 7 1 11 c1Store).store.refundRequests 1 ≠ c1Store.refundRequests 1 := by
  constructor
  · rfl
  · decide

/-- C1 (amended): for every public mutating operation and every starting
state, an error return leaves the persisted state completely unchanged,
with one exception: `execute_refund` returning RefundNotApproved updates
the stored refund request to executed = true, approved = false, and
changes nothing else. -/
theorem C1_error_atomicity :
    ∀ (op : AjoOp) (t : Nat) (s : Store) (e : AjoError),
      (step op t s).res = .error e →
      (step op t s).store = s ∨
      (∃ x gid req, op = .executeRefund x gid ∧ e = .RefundNotApproved ∧
        s.refundRequests gid = some req ∧ req.executed = false ∧
        (step op t s).store =
          store_refund_request s gid { req with executed := true, approved := false }) := by
  intro op t s e h
  cases op with
  | createGroup c a d mm gp pr =>
      refine Or.inl ?_
      have hres : (create_group c a d mm gp pr t s).res = .error e := by
        simp only [step] at h
        cases hc : (create_group c a d mm gp pr t s).res with
        | ok v => rw [hc] at h; exact absurd h (by simp [Except.map])
        | error e2 =>
            rw [hc] at h
            simp only [Except.map, Except.error.injEq] at h
            rw [h]
      exact create_group_err hres
  | joinGroup m gid => exact Or.inl (@join_group_err m gid t s e h)
  | contributeOp m gid => exact Or.inl (@contribute_err m gid t s e h)
  | executePayout gid => exact Or.inl (@execute_payout_err gid t s e h)
  | cancelGroup c gid => exact Or.inl (@cancel_group_err c gid t s e h)
  | requestRefund r gid => exact Or.inl (@request_refund_err r gid t s e h)
  | voteRefund v gid f => exact Or.inl (@vote_refund_err v gid f t s e h)
  | executeRefund x gid =>
      rcases @execute_refund_err x gid t s e h with hs | ⟨he, req, hreq, hex, hst⟩
      · exact Or.inl hs
      · exact Or.inr ⟨x, gid, req, rfl, he, hreq, hex, hst⟩
  | emergencyRefundOp a gid => exact Or.inl (@emergency_refund_err a gid t s e h)

/-- Witness for C1: `contribute` on the empty store fails with
GroupNotFound and leaves the store unchanged. -/
theorem C1_error_atomicity_witness :
    (step (.contributeOp 5 1) 0 initialStore).res = .error .GroupNotFound ∧
    ((step (.contributeOp 5 1) 0 initialStore).store = initialStore ∨
     (∃ x gid req, AjoOp.contributeOp 5 1 = .executeRefund x gid ∧
        AjoError.GroupNotFound = .RefundNotApproved ∧
        initialStore.refundRequests gid = some req ∧ req.executed = false ∧
        (step (.contributeOp 5 1) 0 initialStore).store =
          store_refund_request initialStore gid
            { req with executed := true, approved := false })) :=
  ⟨rfl, C1_error_atomicity (.contributeOp 5 1) 0 initialStore .GroupNotFound rfl⟩

/-- The per-group shape invariant the operations maintain:
`payout_index` never exceeds the member count, `is_complete` tracks
`payout_index = members.length` exactly, a Complete state implies the
flag, and a set flag rules out the Active state (the state is then
Complete, or Cancelled after a refund of a completed group). -/
def GroupInv (g : Group) : Prop :=
  g.payout_index ≤ g.members.length ∧
  (g.is_complete = true ↔ g.payout_index = g.members.length) ∧
  (g.state = .Complete → g.is_complete = true) ∧
  (g.is_complete = true → g.state ≠ .Active)

/-- The store-wide invariant: group ids never exceed the counter, and
every stored group satisfies `GroupInv`. -/
def StoreInv (s : Store) : Prop :=
  (∀ gid, s.groupCounter < gid → s.groups gid = none) ∧
  (∀ gid g, s.groups gid = some g → GroupInv g)

theorem storeInv_initial : StoreInv initialStore :=
  ⟨fun _ _ => rfl, fun _ g h => by simp only [initialStore] at h; cases h⟩

/-- `StoreInv` only looks at `groups` and `groupCounter`. -/
theorem storeInv_of_same {s s' : Store} (hg : s'.groups = s.groups)
    (hc : s'.groupCounter = s.groupCounter) (h : StoreInv s) : StoreInv s' := by
  unfold StoreInv at *
  rw [hg, hc]
  exact h

/-- Writing a group back under an existing id keeps `StoreInv` provided the
new group satisfies `GroupInv`. -/
theorem storeInv_store_group {s : Store} {gid : Nat} {g g' : Group} (h : StoreInv s)
    (hg : s.groups gid = some g) (hgi : GroupInv g') :
    StoreInv (store_group s gid g') := by
  constructor
  · intro k hk
    rcases eq_or_ne k gid with rfl | hne
    · rw [h.1 k hk] at hg; cases hg
    · simpa [store_group_groups, hne] using h.1 k hk
  · intro k gk hgk
    rcases eq_or_ne k gid with rfl | hne
    · rw [store_group_groups, if_pos rfl] at hgk
      cases hgk
      exact hgi
    · exact h.2 k gk (by simpa [store_group_groups, hne] using hgk)

theorem groupInv_cancel {g : Group} (hg : GroupInv g) :
    GroupInv { g with state := .Cancelled } :=
  ⟨hg.1, hg.2.1, by simp, by simp⟩

theorem groupInv_join {g : Group} (hg : GroupInv g) (hic : g.is_complete = false)
    (m : Addr) : GroupInv { g with members := g.members ++ [m] } := by
  obtain ⟨h1, h2, h3, h4⟩ := hg
  have hne : g.payout_index ≠ g.members.length := fun hx => by
    rw [h2.mpr hx] at hic; cases hic
  refine ⟨?_, ?_, ?_, ?_⟩ <;> simp only [List.length_append, List.length_cons,
    List.length_nil, hic]
  · omega
  · constructor
    · intro hx; cases hx
    · intro hx; omega
  · intro hst
    have := h3 hst
    rw [hic] at this; cases this
  · intro hx; cases hx

theorem storeInv_initContract (a : Addr) {s : Store} (h : StoreInv s) :
    StoreInv ((initContract a s).store) := by
  unfold initContract
  split <;> exact storeInv_of_same rfl rfl h

theorem storeInv_create_group (c : Addr) (a : Int) (d mm gp pr t : Nat) {s : Store}
    (h : StoreInv s) : StoreInv ((create_group c a d mm gp pr t s).store) := by
  simp only [create_group, validate_group_params, validate_penalty_params,
    ensure_not_paused]
  repeat' split
  all_goals try exact h
  constructor
  · intro k hk
    simp only [store_group] at hk ⊢
    rw [if_neg (by omega)]
    exact h.1 k (by omega)
  · intro k gk hgk
    simp only [store_group] at hgk
    rcases eq_or_ne k (s.groupCounter + 1) with rfl | hne
    · rw [if_pos rfl] at hgk
      cases hgk
      exact ⟨by simp, by simp, by simp, by simp⟩
    · rw [if_neg hne] at hgk
      exact h.2 k gk hgk

theorem storeInv_join_group (m : Addr) (gid t : Nat) {s : Store} (h : StoreInv s) :
    StoreInv ((join_group m gid t s).store) := by
  simp only [join_group, ensure_not_paused]
  repeat' split
  all_goals try exact h
  rename_i og g hg hic hmem hlen
  exact storeInv_store_group h hg
    (groupInv_join (h.2 gid g hg) (by simpa using hic) m)

theorem storeInv_contribute (m : Addr) (gid t : Nat) {s : Store} (h : StoreInv s) :
    StoreInv ((contribute m gid t s).store) := by
  simp only [contribute, ensure_not_paused]
  repeat' split
  all_goals exact storeInv_of_same rfl rfl h

theorem storeInv_payout_complete {s : Store} {gid : Nat} {g : Group} {r : Addr}
    (h : StoreInv s) (hg : get_group s gid = some g)
    (hic : ¬ g.is_complete = true)
    (hr : g.members.get? g.payout_index = some r)
    (hge : g.payout_index + 1 ≥ g.members.length) :
    StoreInv (store_group (mark_payout_received s gid r) gid
      { g with payout_index := g.payout_index + 1, is_complete := true,
               state := .Complete }) := by
  have hlt : g.payout_index < g.members.length := by
    rcases List.get?_eq_some.mp hr with ⟨hh, _⟩
    exact hh
  refine storeInv_store_group (storeInv_of_same rfl rfl h) (by exact hg) ?_
  exact ⟨by simp; omega, by simp; omega, by simp, by simp⟩

theorem storeInv_payout_advance {s : Store} {gid t : Nat} {g : Group} {r : Addr}
    (h : StoreInv s) (hg : get_group s gid = some g)
    (hic : ¬ g.is_complete = true) (hcan : ¬ g.state = .Cancelled)
    (hr : g.members.get? g.payout_index = some r)
    (hlt2 : ¬ g.payout_index + 1 ≥ g.members.length) :
    StoreInv (store_group (mark_payout_received s gid r) gid
      { g with payout_index := g.payout_index + 1,
               current_cycle := g.current_cycle + 1, cycle_start_time := t }) := by
  have hgi := h.2 gid g hg
  have hicf : g.is_complete = false := by simpa using hic
  have hstA : g.state ≠ .Complete := fun hx => by
    have := hgi.2.2.1 hx
    rw [hicf] at this
    cases this
  refine storeInv_store_group (storeInv_of_same rfl rfl h) (by exact hg) ?_
  refine ⟨by simp; omega, ?_, ?_, ?_⟩
  · simp only [hicf]
    constructor
    · intro hx; cases hx
    · intro hx; omega
  · intro hx
    exact absurd hx hstA
  · simp [hicf]

theorem storeInv_execute_payout (gid t : Nat) {s : Store} (h : StoreInv s) :
    StoreInv ((execute_payout gid t s).store) := by
  simp only [execute_payout, ensure_not_paused]
  repeat' split
  all_goals first
    | exact h
    | exact storeInv_payout_complete h ‹_› ‹_› ‹_› ‹_›
    | exact storeInv_payout_advance h ‹_› ‹_› ‹_› ‹_› ‹_›

theorem storeInv_cancel_write {s : Store} {gid t : Nat} {g : Group}
    (h : StoreInv s) (hg : get_group s gid = some g) :
    StoreInv (store_group (process_refunds gid g.current_cycle g.contribution_amount t
      .CreatorCancellation 0 g.members s).1 gid { g with state := .Cancelled }) := by
  refine storeInv_store_group (storeInv_of_same (by simp) (by simp) h) (by simpa using hg)
    (groupInv_cancel (h.2 gid g hg))

theorem storeInv_cancel_group (c : Addr) (gid t : Nat) {s : Store} (h : StoreInv s) :
    StoreInv ((cancel_group c gid t s).store) := by
  simp only [cancel_group, ensure_not_paused]
  repeat' split
  all_goals first
    | exact h
    | exact storeInv_cancel_write h ‹_›

theorem storeInv_request_refund (r : Addr) (gid t : Nat) {s : Store} (h : StoreInv s) :
    StoreInv ((request_refund r gid t s).store) := by
  simp only [request_refund, ensure_not_paused]
  repeat' split
  all_goals exact storeInv_of_same rfl rfl h

theorem storeInv_vote_refund (v : Addr) (gid : Nat) (f : Bool) (t : Nat) {s : Store}
    (h : StoreInv s) : StoreInv ((vote_refund v gid f t s).store) := by
  simp only [vote_refund, ensure_not_paused]
  repeat' split
  all_goals exact storeInv_of_same rfl rfl h

theorem storeInv_exec_refund_write {s : Store} {gid t : Nat} {g : Group}
    {req : RefundRequest} (h : StoreInv s) (hg : get_group s gid = some g) :
    StoreInv (store_group (store_refund_request (process_refunds gid g.current_cycle
      g.contribution_amount t .MemberVote 1 g.members s).1 gid req) gid
      { g with state := .Cancelled }) := by
  refine storeInv_store_group (storeInv_of_same (by simp) (by simp) h) (by simpa using hg)
    (groupInv_cancel (h.2 gid g hg))

theorem storeInv_execute_refund (x : Addr) (gid t : Nat) {s : Store} (h : StoreInv s) :
    StoreInv ((execute_refund x gid t s).store) := by
  simp only [execute_refund, ensure_not_paused]
  repeat' split
  all_goals first
    | exact storeInv_of_same rfl rfl h
    | exact storeInv_exec_refund_write h ‹_›

theorem storeInv_emer_write {s : Store} {gid t : Nat} {g : Group}
    (h : StoreInv s) (hg : get_group s gid = some g) :
    StoreInv (store_group (process_refunds gid g.current_cycle g.contribution_amount t
      .EmergencyRefund 2 g.members s).1 gid { g with state := .Cancelled }) := by
  refine storeInv_store_group (storeInv_of_same (by simp) (by simp) h) (by simpa using hg)
    (groupInv_cancel (h.2 gid g hg))

theorem storeInv_emergency_refund (a : Addr) (gid t : Nat) {s : Store} (h : StoreInv s) :
    StoreInv ((emergency_refund a gid t s).store) := by
  simp only [emergency_refund]
  repeat' split
  all_goals first
    | exact h
    | exact storeInv_emer_write h ‹_›

theorem storeInv_step (op : AjoOp) (t : Nat) {s : Store} (h : StoreInv s) :
    StoreInv ((step op t s).store) := by
  cases op with
  | createGroup c a d mm gp pr => exact storeInv_create_group c a d mm gp pr t h
  | joinGroup m gid => exact storeInv_join_group m gid t h
  | contributeOp m gid => exact storeInv_contribute m gid t h
  | executePayout gid => exact storeInv_execute_payout gid t h
  | cancelGroup c gid => exact storeInv_cancel_group c gid t h
  | requestRefund r gid => exact storeInv_request_refund r gid t h
  | voteRefund v gid f => exact storeInv_vote_refund v gid f t h
  | executeRefund x gid => exact storeInv_execute_refund x gid t h
  | emergencyRefundOp a gid => exact storeInv_emergency_refund a gid t h

theorem storeInv_reachableFrom {s u : Store} (h : ReachableFrom s u)
    (hs : StoreInv s) : StoreInv u := by
  induction h with
  | refl => exact hs
  | step op t _ ih => exact storeInv_step op t ih
  | admin_init a _ ih => exact storeInv_initContract a ih
  | set_pause b _ ih => exact storeInv_of_same rfl rfl ih

theorem storeInv_reachable {s : Store} (h : Reachable s) : StoreInv s :=
  storeInv_reachableFrom h storeInv_initial

/-- A full run of a two-member group: init admin 9, create, join, two
cycles of contributions and payouts (completing the group), then an admin
emergency refund of the completed group. -/
def c2Script : List (AjoOp × Nat) :=
  [ (.createGroup 1 5 10 2 5 0, 0), (.joinGroup 2 1, 0),
    (.contributeOp 1 1, 1), (.contributeOp 2 1, 1),
    (.executePayout 1, 15),
    (.contributeOp 1 1, 16), (.contributeOp 2 1, 16),
    (.executePayout 1, 30),
    (.emergencyRefundOp 9 1, 31) ]

/-- The store after `c2Script`. -/
def c2Store : Store := runScript c2Script (initContract 9 initialStore).store

/-- C2, counterexample: after completing a group and then admin
emergency-refunding it (a reachable sequence), the group has
`is_complete = true` and `payout_index = members.length = 2`, yet
`state = Cancelled`, so `is_complete = true` does not coincide with
`state = Complete` in every reachable state. -/
theorem C2_counterexample :
    Reachable c2Store ∧
    (c2Store.groups 1).map
        (fun g => (g.is_complete, g.payout_index, g.members.length, g.state)) =
      some (true, 2, 2, .Cancelled) := by
  constructor
  · exact ReachableFrom.trans (.admin_init 9 .refl) (reachableFrom_runScript c2Script _)
  · decide

/-- C2 (amended): in every reachable state, `payout_index ≤ members.length`
and `is_complete = true` exactly when `payout_index = members.length`;
`state = Complete` always implies `is_complete`, and `is_complete` implies
the state is Complete or Cancelled (Cancelled occurs when
`execute_refund`/`emergency_refund` runs on an already-Complete group). -/
theorem C2_completion_lockstep :
    ∀ s, Reachable s → ∀ gid g, get_group s gid = some g →
      g.payout_index ≤ g.members.length ∧
      (g.is_complete = true ↔ g.payout_index = g.members.length) ∧
      (g.state = .Complete → g.is_complete = true) ∧
      (g.is_complete = true → g.state = .Complete ∨ g.state = .Cancelled) := by
  intro s hs gid g hg
  have hI := (storeInv_reachable hs).2 gid g hg
  refine ⟨hI.1, hI.2.1, hI.2.2.1, ?_⟩
  intro hic
  have hA := hI.2.2.2 hic
  rcases h3 : g.state
  · exact absurd h3 hA
  · exact Or.inr rfl
  · exact Or.inl rfl

/-- The store right after creating a group: used as the C2 witness state. -/
def c2WitnessStore : Store := (step (.createGroup 1 5 10 2 5 0) 0 initialStore).store

/-- The freshly created group stored in `c2WitnessStore`. -/
def c2WitnessGroup : Group := ⟨1, 1, 5, 10, 2, [1], 1, 0, 0, 0, false, 5, 0, .Active⟩

/-- Witness for C2: the invariant evaluated on a concrete reachable store. -/
theorem C2_completion_lockstep_witness :
    get_group c2WitnessStore 1 = some c2WitnessGroup ∧
    (c2WitnessGroup.payout_index ≤ c2WitnessGroup.members.length ∧
     (c2WitnessGroup.is_complete = true ↔
        c2WitnessGroup.payout_index = c2WitnessGroup.members.length) ∧
     (c2WitnessGroup.state = .Complete → c2WitnessGroup.is_complete = true) ∧
     (c2WitnessGroup.is_complete = true →
        c2WitnessGroup.state = .Complete ∨ c2WitnessGroup.state = .Cancelled)) :=
  ⟨rfl, C2_completion_lockstep c2WitnessStore (.step _ 0 .refl) 1 c2WitnessGroup rfl⟩

@[simp] theorem initContract_groups (a : Addr) (s : Store) :
    ((initContract a s).store).groups = s.groups := by
  unfold initContract
  split <;> rfl

/-- On `contribute`, `request_refund` and `vote_refund` no group record is
ever written; on any error branch of any operation nothing is written, so a
Cancelled group at `gid` stays as it is. -/
theorem cancelled_create_case {s : Store} {gid : Nat} {g gnew : Group}
    (hInv : StoreInv s) (hg : s.groups gid = some g) (hc : g.state = .Cancelled) :
    ∃ g', (store_group { s with groupCounter := s.groupCounter + 1 }
      (s.groupCounter + 1) gnew).groups gid = some g' ∧ g'.state = .Cancelled := by
  have hle : ¬ s.groupCounter < gid := fun hlt => by rw [hInv.1 gid hlt] at hg; cases hg
  refine ⟨g, ?_, hc⟩
  rw [store_group_groups, if_neg (by omega)]
  exact hg

/-- Writing any group whose state matches the overwritten group's state
preserves "gid holds a Cancelled group". -/
theorem cancelled_same_state_write {s : Store} {gid gid2 : Nat} {g g2 gnew : Group}
    (hg : s.groups gid = some g) (hc : g.state = .Cancelled)
    (hg2 : get_group s gid2 = some g2) (hnew : gnew.state = g2.state) :
    ∃ g', (store_group s gid2 gnew).groups gid = some g' ∧ g'.state = .Cancelled := by
  rcases eq_or_ne gid gid2 with rfl | hne
  · have he : g2 = g := by
      have hx : s.groups gid = some g2 := hg2
      rw [hg] at hx
      exact (Option.some.inj hx).symm
    exact ⟨gnew, by rw [store_group_groups, if_pos rfl], by rw [hnew, he, hc]⟩
  · exact ⟨g, by rw [store_group_groups, if_neg hne]; exact hg, hc⟩

/-- Writing at a group that passed a "not Cancelled" check cannot touch the
Cancelled group at `gid`. -/
theorem cancelled_other_group {s s2 : Store} {gid gid2 : Nat} {g g2 gnew : Group}
    (hg : s.groups gid = some g) (hc : g.state = .Cancelled)
    (hg2 : get_group s gid2 = some g2) (hcan2 : ¬ g2.state = .Cancelled)
    (hs2 : s2.groups = s.groups) :
    ∃ g', (store_group s2 gid2 gnew).groups gid = some g' ∧ g'.state = .Cancelled := by
  rcases eq_or_ne gid gid2 with rfl | hne
  · have hx : s.groups gid = some g2 := hg2
    rw [hg] at hx
    cases Option.some.inj hx
    exact absurd hc hcan2
  · exact ⟨g, by rw [store_group_groups, if_neg hne, hs2]; exact hg, hc⟩

/-- Writing a group in the Cancelled state keeps `gid` Cancelled whether or
not it is the same group. -/
theorem cancelled_write_cancelled {s s2 : Store} {gid gid2 : Nat} {g gnew : Group}
    (hg : s.groups gid = some g) (hc : g.state = .Cancelled)
    (hs2 : s2.groups = s.groups) (hnew : gnew.state = .Cancelled) :
    ∃ g', (store_group s2 gid2 gnew).groups gid = some g' ∧ g'.state = .Cancelled := by
  rcases eq_or_ne gid gid2 with rfl | hne
  · exact ⟨gnew, by rw [store_group_groups, if_pos rfl], hnew⟩
  · exact ⟨g, by rw [store_group_groups, if_neg hne, hs2]; exact hg, hc⟩

/-- One public operation never moves a group out of the Cancelled state. -/
theorem cancelled_preserved_step (op : AjoOp) (t : Nat) {s : Store} {gid : Nat}
    {g : Group} (hInv : StoreInv s) (hg : s.groups gid = some g)
    (hc : g.state = .Cancelled) :
    ∃ g', ((step op t s).store).groups gid = some g' ∧ g'.state = .Cancelled := by
  cases op with
  | createGroup c a d mm gp pr =>
      simp only [step, create_group, validate_group_params, validate_penalty_params,
        ensure_not_paused]
      repeat' split
      all_goals first
        | exact ⟨g, hg, hc⟩
        | exact cancelled_create_case hInv hg hc
  | joinGroup m gid2 =>
      simp only [step, join_group, ensure_not_paused]
      repeat' split
      all_goals try exact ⟨g, hg, hc⟩
      rename_i g2 hg2 hic hmem hlen
      exact cancelled_same_state_write hg hc hg2 rfl
  | contributeOp m gid2 =>
      simp only [step, contribute, ensure_not_paused]
      repeat' split
      all_goals exact ⟨g, hg, hc⟩
  | executePayout gid2 =>
      simp only [step, execute_payout, ensure_not_paused]
      repeat' split
      all_goals first
        | exact ⟨g, hg, hc⟩
        | exact cancelled_other_group hg hc ‹_› ‹_› rfl
  | cancelGroup c gid2 =>
      simp only [step, cancel_group, ensure_not_paused]
      repeat' split
      all_goals first
        | exact ⟨g, hg, hc⟩
        | exact cancelled_write_cancelled hg hc (by simp) rfl
  | requestRefund r gid2 =>
      simp only [step, request_refund, ensure_not_paused]
      repeat' split
      all_goals exact ⟨g, hg, hc⟩
  | voteRefund v gid2 f =>
      simp only [step, vote_refund, ensure_not_paused]
      repeat' split
      all_goals exact ⟨g, hg, hc⟩
  | executeRefund x gid2 =>
      simp only [step, execute_refund, ensure_not_paused]
      repeat' split
      all_goals first
        | exact ⟨g, hg, hc⟩
        | exact cancelled_write_cancelled hg hc (by simp) rfl
  | emergencyRefundOp a gid2 =>
      simp only [step, emergency_refund]
      repeat' split
      all_goals first
        | exact ⟨g, hg, hc⟩
        | exact cancelled_write_cancelled hg hc (by simp) rfl

/-- Any sequence of operations keeps a Cancelled group Cancelled. -/
theorem cancelled_preserved_reachableFrom {s u : Store} (h : ReachableFrom s u)
    (hInv : StoreInv s) {gid : Nat} {g : Group} (hg : s.groups gid = some g)
    (hc : g.state = .Cancelled) :
    ∃ g', u.groups gid = some g' ∧ g'.state = .Cancelled := by
  induction h with
  | refl => exact ⟨g, hg, hc⟩
  | step op t h' ih =>
      obtain ⟨g', hg', hc'⟩ := ih
      exact cancelled_preserved_step op t (storeInv_reachableFrom h' hInv) hg' hc'
  | admin_init a h' ih =>
      obtain ⟨g', hg', hc'⟩ := ih
      exact ⟨g', by rw [initContract_groups]; exact hg', hc'⟩
  | set_pause b h' ih => exact ih

theorem contribute_on_cancelled {m : Addr} {gid t : Nat} {s : Store} {g : Group}
    (hp : s.paused = false) (hg : get_group s gid = some g)
    (hc : g.state = .Cancelled) :
    contribute m gid t s = ⟨.error .GroupCancelled, s, []⟩ := by
  simp [contribute, ensure_not_paused, hp, hg, hc]

theorem payout_on_cancelled {gid t : Nat} {s : Store} {g : Group}
    (hp : s.paused = false) (hg : get_group s gid = some g)
    (hc : g.state = .Cancelled) :
    execute_payout gid t s = ⟨.error .GroupCancelled, s, []⟩ := by
  simp [execute_payout, ensure_not_paused, hp, hg, hc]

theorem cancel_on_cancelled {gid t : Nat} {s : Store} {g : Group}
    (hp : s.paused = false) (hg : get_group s gid = some g)
    (hc : g.state = .Cancelled) :
    cancel_group g.creator gid t s = ⟨.error .GroupCancelled, s, []⟩ := by
  simp [cancel_group, ensure_not_paused, hp, hg, hc]

theorem request_on_cancelled {r : Addr} {gid t : Nat} {s : Store} {g : Group}
    (hp : s.paused = false) (hg : get_group s gid = some g)
    (hc : g.state = .Cancelled) (hm : r ∈ g.members) :
    request_refund r gid t s = ⟨.error .GroupCancelled, s, []⟩ := by
  simp [request_refund, ensure_not_paused, is_member, hp, hg, hc, hm]

/-- C3: for a reachable store holding a Cancelled group, each of
contribute, execute_payout, cancel_group (by the creator) and
request_refund (by a member) fails with GroupCancelled and leaves the
whole store unchanged (publishing nothing), and no further sequence of
public operations, admin initialization or pause toggling ever moves the
group out of the Cancelled state. -/
theorem C3_cancelled_terminal :
    ∀ s, Reachable s → ∀ gid g, get_group s gid = some g → g.state = .Cancelled →
      (∀ m t, s.paused = false →
          contribute m gid t s = ⟨.error .GroupCancelled, s, []⟩) ∧
      (∀ t, s.paused = false →
          execute_payout gid t s = ⟨.error .GroupCancelled, s, []⟩) ∧
      (∀ t, s.paused = false →
          cancel_group g.creator gid t s = ⟨.error .GroupCancelled, s, []⟩) ∧
      (∀ m t, s.paused = false → m ∈ g.members →
          request_refund m gid t s = ⟨.error .GroupCancelled, s, []⟩) ∧
      (∀ u, ReachableFrom s u → ∃ g', get_group u gid = some g' ∧ g'.state = .Cancelled) := by
  intro s hs gid g hg hc
  have hInv := storeInv_reachable hs
  refine ⟨?_, ?_, ?_, ?_, ?_⟩
  · intro m t hp
    exact contribute_on_cancelled hp hg hc
  · intro t hp
    exact payout_on_cancelled hp hg hc
  · intro t hp
    exact cancel_on_cancelled hp hg hc
  · intro m t hp hm
    exact request_on_cancelled hp hg hc hm
  · intro u hu
    exact cancelled_preserved_reachableFrom hu hInv hg hc

/-- A group created and immediately cancelled by its creator. -/
def c3Script : List (AjoOp × Nat) :=
  [ (.createGroup 1 5 10 2 5 0, 0), (.cancelGroup 1 1, 1) ]

/-- The store after `c3Script`: group 1 is Cancelled. -/
def c3Store : Store := runScript c3Script initialStore

/-- The cancelled group held by `c3Store`. -/
def c3Group : Group := ⟨1, 1, 5, 10, 2, [1], 1, 0, 0, 0, false, 5, 0, .Cancelled⟩

/-- Witness for C3: on the concrete cancelled store, `contribute` fails
with GroupCancelled leaving everything unchanged, and after one more
operation the group is still Cancelled. -/
theorem C3_cancelled_terminal_witness :
    contribute 2 1 5 c3Store = ⟨.error .GroupCancelled, c3Store, []⟩ ∧
    (∃ g', get_group (step (.joinGroup 3 1) 6 c3Store).store 1 = some g' ∧
       g'.state = .Cancelled) := by
  have W := C3_cancelled_terminal c3Store (reachableFrom_runScript c3Script initialStore)
    1 c3Group rfl rfl
  exact ⟨W.1 2 5 rfl, W.2.2.2.2 _ (.step (.joinGroup 3 1) 6 .refl)⟩

/-- C10: initialization succeeds at most once — the first call stores the
given admin, and any later call fails with AlreadyInitialized leaving the
whole store (in particular the stored admin) unchanged. -/
theorem C10_init_once :
    ∀ (s : Store) (a : Addr),
      (s.admin = none →
        (initContract a s).res = .ok () ∧
        (initContract a s).store = { s with admin := some a }) ∧
      (∀ a0, s.admin = some a0 →
        (initContract a s).res = .error .AlreadyInitialized ∧
        (initContract a s).store = s) := by
  intro s a
  constructor
  · intro h
    constructor <;> simp [initContract, h]
  · intro a0 h
    constructor <;> simp [initContract, h]

/-- Witness for C10: first initialization stores admin 9; a second call
with admin 7 fails and changes nothing. -/
theorem C10_init_once_witness :
    ((initContract 9 initialStore).res = .ok () ∧
     (initContract 9 initialStore).store = { initialStore with admin := some 9 }) ∧
    ((initContract 7 (initContract 9 initialStore).store).res =
        .error .AlreadyInitialized ∧
     (initContract 7 (initContract 9 initialStore).store).store =
        (initContract 9 initialStore).store) :=
  ⟨(C10_init_once initialStore 9).1 rfl,
   (C10_init_once (initContract 9 initialStore).store 7).2 9 rfl⟩

/-- `emergency_refund` never reads the pause flag: its result is the same
whether or not the store is paused. -/
theorem emergency_refund_pause_blind (a : Addr) (gid t : Nat) (s : Store) (b : Bool) :
    (emergency_refund a gid t (setPaused b s)).res = (emergency_refund a gid t s).res := by
  simp only [emergency_refund, setPaused, get_group]
  repeat' split
  all_goals rfl

/-- An initialized, paused store holding an Active group whose creator has
contributed. -/
def c4Store : Store :=
  setPaused true (runScript [(.createGroup 1 5 10 2 5 0, 0), (.contributeOp 1 1, 1)]
    (initContract 9 initialStore).store)

/-- C4, counterexample: with the pause flag set, `emergency_refund`
nevertheless succeeds and cancels the group (it is not pause-gated), and a
paused `create_group` call with an invalid amount fails with the
validation error rather than ContractPaused. -/
theorem C4_counterexample :
    c4Store.paused = true ∧
    (emergency_refund 9 1 2 c4Store).res = .ok () ∧
    ((emergency_refund 9 1 2 c4Store).store.groups 1).map Group.state =
      some .Cancelled ∧
    (create_group 1 0 10 2 5 0 3 c4Store).res = .error .ContributionAmountZero := by
  refine ⟨rfl, rfl, by decide, rfl⟩

/-- C4 (amended): when the pause flag is set, join_group, contribute,
execute_payout, cancel_group, request_refund, vote_refund and
execute_refund fail with ContractPaused changing nothing; create_group
fails with ContractPaused when its parameters are valid (parameter
validation runs first, so invalid parameters yield the validation error
instead) and in every case changes nothing; emergency_refund ignores the
pause flag entirely; reads and the pause toggle itself are unaffected. -/
theorem C4_pause_gating :
    ∀ s, s.paused = true →
      (∀ (c : Addr) (a : Int) (d mm gp pr t : Nat),
        validate_group_params a d mm = .ok () → validate_penalty_params gp pr = .ok () →
        create_group c a d mm gp pr t s = ⟨.error .ContractPaused, s, []⟩) ∧
      (∀ (c : Addr) (a : Int) (d mm gp pr t : Nat), ∃ e,
        (create_group c a d mm gp pr t s).res = .error e ∧
        (create_group c a d mm gp pr t s).store = s) ∧
      (∀ m gid t, join_group m gid t s = ⟨.error .ContractPaused, s, []⟩) ∧
      (∀ m gid t, contribute m gid t s = ⟨.error .ContractPaused, s, []⟩) ∧
      (∀ gid t, execute_payout gid t s = ⟨.error .ContractPaused, s, []⟩) ∧
      (∀ c gid t, cancel_group c gid t s = ⟨.error .ContractPaused, s, []⟩) ∧
      (∀ r gid t, request_refund r gid t s = ⟨.error .ContractPaused, s, []⟩) ∧
      (∀ v gid f t, vote_refund v gid f t s = ⟨.error .ContractPaused, s, []⟩) ∧
      (∀ x gid t, execute_refund x gid t s = ⟨.error .ContractPaused, s, []⟩) ∧
      (∀ a gid t, (emergency_refund a gid t s).res =
        (emergency_refund a gid t (setPaused false s)).res) ∧
      (∀ gid b, get_group (setPaused b s) gid = get_group s gid) ∧
      (setPaused false s).paused = false := by
  intro s hps
  refine ⟨?_, ?_, ?_, ?_, ?_, ?_, ?_, ?_, ?_, ?_, ?_, rfl⟩
  · intro c a d mm gp pr t hv1 hv2
    simp [create_group, ensure_not_paused, hv1, hv2, hps]
  · intro c a d mm gp pr t
    cases hv1 : validate_group_params a d mm with
    | error e =>
        exact ⟨e, by simp [create_group, hv1], by simp [create_group, hv1]⟩
    | ok u =>
        cases u
        cases hv2 : validate_penalty_params gp pr with
        | error e =>
            exact ⟨e, by simp [create_group, hv1, hv2], by simp [create_group, hv1, hv2]⟩
        | ok u2 =>
            cases u2
            exact ⟨.ContractPaused,
              by simp [create_group, ensure_not_paused, hv1, hv2, hps],
              by simp [create_group, ensure_not_paused, hv1, hv2, hps]⟩
  · intro m gid t
    simp [join_group, ensure_not_paused, hps]
  · intro m gid t
    simp [contribute, ensure_not_paused, hps]
  · intro gid t
    simp [execute_payout, ensure_not_paused, hps]
  · intro c gid t
    simp [cancel_group, ensure_not_paused, hps]
  · intro r gid t
    simp [request_refund, ensure_not_paused, hps]
  · intro v gid f t
    simp [vote_refund, ensure_not_paused, hps]
  · intro x gid t
    simp [execute_refund, ensure_not_paused, hps]
  · intro a gid t
    exact (emergency_refund_pause_blind a gid t s false).symm
  · intro gid b
    rfl

/-- Witness for C4: on the concrete paused store, `join_group` fails with
ContractPaused and nothing changes. -/
theorem C4_pause_gating_witness :
    c4Store.paused = true ∧
    join_group 5 1 7 c4Store = ⟨.error .ContractPaused, c4Store, []⟩ :=
  ⟨rfl, ((C4_pause_gating c4Store rfl).2.2.1) 5 1 7⟩

/-- A recipient read at `payout_index` pins the index below the member
count, so advancing by one reaches the count exactly when the check
`payout_index + 1 ≥ members.length` fires. -/
theorem payout_complete_index {g : Group} {r : Addr}
    (hr : g.members[g.payout_index]? = some r)
    (hge : g.members.length ≤ g.payout_index + 1) :
    g.payout_index + 1 = g.members.length := by
  have hlt : g.payout_index < g.members.length := by
    by_contra hx
    rw [List.getElem?_eq_none (by omega)] at hr
    cases hr
  omega

/-- C5: whenever `execute_payout` succeeds, the recipient is
`members[payout_index]`, who is marked as paid; the payout event carries
`contribution_amount * members.length` plus the cycle's penalty pool;
and the stored group advances `payout_index` by one, either completing
(index reaches the member count, `is_complete` set, state Complete) or
moving to the next cycle with `cycle_start_time` reset to the call time. -/
theorem C5_payout_effects :
    ∀ gid t s, (execute_payout gid t s).res = .ok () →
    ∃ g r, get_group s gid = some g ∧
      g.members.get? g.payout_index = some r ∧
      ((execute_payout gid t s).store).payoutReceived gid r = true ∧
      Event.payoutExecuted gid r g.current_cycle
        (calculate_payout_amount g + get_cycle_penalty_pool s gid g.current_cycle)
        ∈ (execute_payout gid t s).events ∧
      ((g.payout_index + 1 = g.members.length ∧
          ((execute_payout gid t s).store).groups gid =
            some { g with payout_index := g.payout_index + 1, is_complete := true,
                          state := .Complete }) ∨
       (g.payout_index + 1 < g.members.length ∧
          ((execute_payout gid t s).store).groups gid =
            some { g with payout_index := g.payout_index + 1,
                          current_cycle := g.current_cycle + 1,
                          cycle_start_time := t })) := by
  intro gid t s h
  simp only [execute_payout, ensure_not_paused] at h ⊢
  repeat' split at h
  all_goals simp_all
  all_goals repeat rw [if_neg (by omega)]
  all_goals refine ⟨by simp [store_group, mark_payout_received], by simp, ?_⟩
  all_goals first
    | exact payout_complete_index ‹_› ‹_›
    | exact Or.inl ⟨payout_complete_index ‹_› ‹_›,
        by simp [store_group, mark_payout_received]⟩
    | exact Or.inr (by simp [store_group, mark_payout_received])

/-- A two-member group after both members contributed in cycle 1. -/
def c5Store : Store :=
  runScript [(.createGroup 1 5 10 2 5 0, 0), (.joinGroup 2 1, 0),
    (.contributeOp 1 1, 1), (.contributeOp 2 1, 1)] initialStore

/-- Witness for C5: on the concrete ready store, the payout at time 15
succeeds and the theorem's conclusions hold. -/
theorem C5_payout_effects_witness :
    (execute_payout 1 15 c5Store).res = .ok () ∧
    (∃ g r, get_group c5Store 1 = some g ∧
      g.members.get? g.payout_index = some r ∧
      ((execute_payout 1 15 c5Store).store).payoutReceived 1 r = true ∧
      Event.payoutExecuted 1 r g.current_cycle
        (calculate_payout_amount g + get_cycle_penalty_pool c5Store 1 g.current_cycle)
        ∈ (execute_payout 1 15 c5Store).events ∧
      ((g.payout_index + 1 = g.members.length ∧
          ((execute_payout 1 15 c5Store).store).groups 1 =
            some { g with payout_index := g.payout_index + 1, is_complete := true,
                          state := .Complete }) ∨
       (g.payout_index + 1 < g.members.length ∧
          ((execute_payout 1 15 c5Store).store).groups 1 =
            some { g with payout_index := g.payout_index + 1,
                          current_cycle := g.current_cycle + 1,
                          cycle_start_time := 15 }))) :=
  ⟨rfl, C5_payout_effects 1 15 c5Store rfl⟩

/-- C6: for a member of an Active, non-complete group who has not yet
contributed this cycle (with the positive contribution amount every group
is created with): before the cycle end the contribution is recorded
on time with no penalty; from the cycle end through the grace period end
it is recorded late with penalty `contribution_amount * penalty_rate / 100`
added to the cycle's penalty pool; after the grace period it is rejected
with GracePeriodExpired and nothing is written. -/
theorem C6_contribution_window :
    ∀ (m : Addr) (gid t : Nat) (s : Store) (g : Group),
      s.paused = false → get_group s gid = some g → g.state = .Active →
      g.is_complete = false → m ∈ g.members →
      has_contributed s gid g.current_cycle m = false →
      0 < g.contribution_amount →
      ((t < g.cycle_start_time + g.cycle_duration →
        (contribute m gid t s).res = .ok () ∧
        ((contribute m gid t s).store).contribDetails gid g.current_cycle m =
          some ⟨m, gid, g.current_cycle, true, t, false, 0⟩ ∧
        ((contribute m gid t s).store).penaltyPools gid g.current_cycle =
          s.penaltyPools gid g.current_cycle) ∧
      (g.cycle_start_time + g.cycle_duration ≤ t →
        t ≤ g.cycle_start_time + g.cycle_duration + g.grace_period →
        (contribute m gid t s).res = .ok () ∧
        ((contribute m gid t s).store).contribDetails gid g.current_cycle m =
          some ⟨m, gid, g.current_cycle, true, t, true,
            Int.tdiv (g.contribution_amount * (g.penalty_rate : Int)) 100⟩ ∧
        ((contribute m gid t s).store).penaltyPools gid g.current_cycle =
          s.penaltyPools gid g.current_cycle +
            Int.tdiv (g.contribution_amount * (g.penalty_rate : Int)) 100) ∧
      (g.cycle_start_time + g.cycle_duration + g.grace_period < t →
        contribute m gid t s = ⟨.error .GracePeriodExpired, s, []⟩)) := by
  intro m gid t s g hp hg hA hic hm hnc hpos
  refine ⟨?_, ?_, ?_⟩
  · intro ht
    have htim : check_contribution_timing g t = (false, 0) := by
      simp [check_contribution_timing, ht]
    simp [contribute, ensure_not_paused, hp, hg, hA, hic, is_member, hm, hnc, htim,
      store_contribution_detail, store_contribution, update_member_penalty_record,
      store_member_penalty]
  · intro ht1 ht2
    have htim : check_contribution_timing g t = (true,
        Int.tdiv (g.contribution_amount * (g.penalty_rate : Int)) 100) := by
      simp [check_contribution_timing, get_grace_period_end, Nat.not_lt.mpr ht1, ht2]
    have hwithin : is_within_grace_period g t = true := by
      simp [is_within_grace_period, get_grace_period_end, ht1, ht2]
    have hpen : 0 ≤ Int.tdiv (g.contribution_amount * (g.penalty_rate : Int)) 100 :=
      Int.tdiv_nonneg (mul_nonneg hpos.le (Int.natCast_nonneg _)) (by norm_num)
    rcases eq_or_lt_of_le hpen with hz | hlt
    · simp [contribute, ensure_not_paused, hp, hg, hA, hic, is_member, hm, hnc, htim,
        hwithin, ← hz, store_contribution_detail, store_contribution,
        update_member_penalty_record, store_member_penalty]
    · simp [contribute, ensure_not_paused, hp, hg, hA, hic, is_member, hm, hnc, htim,
        hwithin, hlt, Int.ne_of_gt hlt, store_contribution_detail, store_contribution,
        update_member_penalty_record, store_member_penalty, add_to_penalty_pool]
  · intro ht
    have h1 : ¬ t < g.cycle_start_time + g.cycle_duration := by omega
    have h2 : ¬ t ≤ g.cycle_start_time + g.cycle_duration + g.grace_period := by
      omega
    have htim : check_contribution_timing g t = (true, 0) := by
      simp [check_contribution_timing, get_grace_period_end, h1, h2]
    have hwithin : is_within_grace_period g t = false := by
      simp only [is_within_grace_period, get_grace_period_end,
        decide_eq_false_iff_not]
      omega
    simp [contribute, ensure_not_paused, hp, hg, hA, hic, is_member, hm, hnc, htim, hwithin]

/-- A three-member-capacity group with the spec scenario's parameters:
amount 100000000, cycle 604800 s, grace 86400 s, penalty rate 5. -/
def c6Store : Store :=
  runScript [(.createGroup 1 100000000 604800 3 86400 5, 0)] initialStore

/-- The group stored in `c6Store`. -/
def c6Group : Group :=
  ⟨1, 1, 100000000, 604800, 3, [1], 1, 0, 0, 0, false, 86400, 5, .Active⟩

/-- Witness for C6: a contribution one hour into the grace period is
accepted as late with a 5% penalty of 5000000 added to the pool. -/
theorem C6_contribution_window_witness :
    Int.tdiv (c6Group.contribution_amount * (c6Group.penalty_rate : Int)) 100 =
      5000000 ∧
    ((contribute 1 1 608400 c6Store).res = .ok () ∧
     ((contribute 1 1 608400 c6Store).store).contribDetails 1 c6Group.current_cycle 1 =
       some ⟨1, 1, c6Group.current_cycle, true, 608400, true,
         Int.tdiv (c6Group.contribution_amount * (c6Group.penalty_rate : Int)) 100⟩ ∧
     ((contribute 1 1 608400 c6Store).store).penaltyPools 1 c6Group.current_cycle =
       c6Store.penaltyPools 1 c6Group.current_cycle +
         Int.tdiv (c6Group.contribution_amount * (c6Group.penalty_rate : Int)) 100) :=
  ⟨by decide,
   (C6_contribution_window 1 1 608400 c6Store c6Group rfl rfl rfl rfl (by decide) rfl
     (by decide)).2.1 (by decide) (by decide)⟩

/-- C7: for an unexecuted refund request whose voting deadline has
passed, execute_refund computes approval = votes_for*100/(votes_for +
votes_against) (0 with no votes); below 51 it marks the request executed
and rejected, returns RefundNotApproved and touches nothing else (the
group stays as it was); at 51 or above it succeeds, writes a RefundRecord
of the full contribution_amount with reason MemberVote for every member
holding a contribution record in the current cycle, marks the request
executed and approved, and sets the group state to Cancelled. -/
theorem C7_refund_vote_threshold :
    ∀ (x : Addr) (gid t : Nat) (s : Store) (g : Group) (req : RefundRequest),
      s.paused = false → get_group s gid = some g →
      s.refundRequests gid = some req → req.executed = false →
      req.voting_deadline < t →
      ((approval_percentage req < 51 →
        execute_refund x gid t s =
          ⟨.error .RefundNotApproved,
           store_refund_request s gid { req with executed := true, approved := false },
           []⟩) ∧
       (51 ≤ approval_percentage req →
        (execute_refund x gid t s).res = .ok () ∧
        (∀ m, m ∈ g.members → has_contributed s gid g.current_cycle m = true →
          ((execute_refund x gid t s).store).refundRecords gid m =
            some ⟨gid, m, g.contribution_amount, t, .MemberVote⟩) ∧
        ((execute_refund x gid t s).store).groups gid =
          some { g with state := .Cancelled } ∧
        ((execute_refund x gid t s).store).refundRequests gid =
          some { req with executed := true, approved := true })) := by
  intro x gid t s g req hp hg hreq hexec hdl
  have hnle : ¬ t ≤ req.voting_deadline := by omega
  constructor
  · intro happ
    simp [execute_refund, ensure_not_paused, hp, hg, hreq, hexec, hnle,
      REFUND_APPROVAL_THRESHOLD, happ]
  · intro happ
    have hred : execute_refund x gid t s =
        ⟨.ok (), store_group (store_refund_request (process_refunds gid g.current_cycle
          g.contribution_amount t .MemberVote 1 g.members s).1 gid
          { req with executed := true, approved := true }) gid
          { g with state := .Cancelled },
         (process_refunds gid g.current_cycle g.contribution_amount t .MemberVote 1
           g.members s).2.1⟩ := by
      simp [execute_refund, ensure_not_paused, hp, hg, hreq, hexec, hnle,
        REFUND_APPROVAL_THRESHOLD, Nat.not_lt.mpr happ]
    refine ⟨by rw [hred], ?_, by rw [hred]; simp [store_group], ?_⟩
    · intro m hm hc
      rw [hred]
      show (store_group _ gid _).refundRecords gid m = _
      rw [store_group_records, store_refund_request_records, process_refunds_records]
      simp only [has_contributed] at hc
      simp [hm, hc]
    · rw [hred]
      show (store_group _ gid _).refundRequests gid = _
      rw [store_group_requests, store_refund_request_requests, if_pos rfl]

/-- A two-member Active group for the C7 witness. -/
def c7Group : Group := ⟨1, 1, 5, 10, 3, [1, 2], 1, 0, 0, 0, false, 5, 0, .Active⟩
/-- A refund request with 2 votes for, 1 against (67% approval), whose
deadline 10 has passed. -/
def c7Request : RefundRequest := ⟨1, 1, 0, 10, 2, 1, false, false⟩
/-- Store with `c7Group`, `c7Request` and both members contributed. -/
def c7Store : Store :=
  store_contribution (store_contribution (store_refund_request
    (store_group initialStore 1 c7Group) 1 c7Request) 1 1 1 true) 1 1 2 true

/-- Witness for C7: the 67%-approved request is executed: both members'
refund records are written and the group is Cancelled. -/
theorem C7_refund_vote_threshold_witness :
    51 ≤ approval_percentage c7Request ∧
    ((execute_refund 7 1 11 c7Store).res = .ok () ∧
     (∀ m, m ∈ c7Group.members →
        has_contributed c7Store 1 c7Group.current_cycle m = true →
        ((execute_refund 7 1 11 c7Store).store).refundRecords 1 m =
          some ⟨1, m, c7Group.contribution_amount, 11, .MemberVote⟩) ∧
     ((execute_refund 7 1 11 c7Store).store).groups 1 =
        some { c7Group with state := .Cancelled } ∧
     ((execute_refund 7 1 11 c7Store).store).refundRequests 1 =
        some { c7Request with executed := true, approved := true }) :=
  ⟨by decide,
   (C7_refund_vote_threshold 7 1 11 c7Store c7Group c7Request rfl rfl rfl rfl
     (by decide)).2 (by decide)⟩

/-- C8: execute_payout succeeds only if every current member holds a
contribution record for the current cycle and the grace period end has
passed; missing contributions yield IncompleteContributions and an early
call yields OutsideCycleWindow. -/
theorem C8_payout_preconditions :
    ∀ gid t s,
      ((execute_payout gid t s).res = .ok () →
        ∃ g, get_group s gid = some g ∧
          (∀ m, m ∈ g.members → has_contributed s gid g.current_cycle m = true) ∧
          get_grace_period_end g ≤ t) ∧
      (∀ g, s.paused = false → get_group s gid = some g → g.state ≠ .Cancelled →
        g.is_complete = false → all_members_contributed s gid g = false →
        (execute_payout gid t s).res = .error .IncompleteContributions) ∧
      (∀ g, s.paused = false → get_group s gid = some g → g.state ≠ .Cancelled →
        g.is_complete = false → all_members_contributed s gid g = true →
        t < get_grace_period_end g →
        (execute_payout gid t s).res = .error .OutsideCycleWindow) := by
  intro gid t s
  refine ⟨?_, ?_, ?_⟩
  · intro h
    simp only [execute_payout, ensure_not_paused] at h
    repeat' split at h
    all_goals simp_all
    all_goals simp only [all_members_contributed, List.all_eq_true,
      has_contributed] at *
    all_goals first
      | exact ⟨by assumption, by omega⟩
      | assumption
  · intro g hp hg hcan hic hall
    simp [execute_payout, ensure_not_paused, hp, hg, hcan, hic, hall]
  · intro g hp hg hcan hic hall htl
    simp [execute_payout, ensure_not_paused, hp, hg, hcan, hic, hall, htl]

/-- The group stored in `c5Store` after both members contributed. -/
def c5Group : Group := ⟨1, 1, 5, 10, 2, [1, 2], 1, 0, 0, 0, false, 5, 0, .Active⟩

/-- Witness for C8: on the ready store the payout at time 15 succeeds
under the stated preconditions, while at time 3 it is OutsideCycleWindow. -/
theorem C8_payout_preconditions_witness :
    (execute_payout 1 15 c5Store).res = .ok () ∧
    (∃ g, get_group c5Store 1 = some g ∧
      (∀ m, m ∈ g.members → has_contributed c5Store 1 g.current_cycle m = true) ∧
      get_grace_period_end g ≤ 15) ∧
    (execute_payout 1 3 c5Store).res = .error .OutsideCycleWindow :=
  ⟨rfl, (C8_payout_preconditions 1 15 c5Store).1 rfl,
   (C8_payout_preconditions 1 3 c5Store).2.2 c5Group rfl rfl (by decide) rfl (by decide)
     (by decide)⟩

/-- Create a 2-member group, contribute, let the cycle expire, request a
refund, vote in favor, then the creator cancels the group — leaving an
unexecuted, fully-approved refund request on a Cancelled group. -/
def c9Script : List (AjoOp × Nat) :=
  [ (.createGroup 1 5 10 2 5 0, 0), (.joinGroup 2 1, 0),
    (.contributeOp 1 1, 1), (.contributeOp 2 1, 1),
    (.requestRefund 1 1, 16), (.voteRefund 1 1 true, 17),
    (.cancelGroup 1 1, 18) ]

/-- The store after `c9Script`. -/
def c9Store : Store := runScript c9Script initialStore

/-- C9: execute_refund does not require an Active group: on the reachable
store `c9Store` the group is already Cancelled (each contributor holding a
CreatorCancellation refund record), yet the approved, unexecuted request
whose deadline passed executes successfully and overwrites both
contributors' refund records with reason MemberVote. -/
theorem C9_exec_refund_on_cancelled :
    Reachable c9Store ∧
    (c9Store.groups 1).map Group.state = some .Cancelled ∧
    (∃ req, c9Store.refundRequests 1 = some req ∧ req.executed = false ∧
      req.voting_deadline < 604817 ∧ 51 ≤ approval_percentage req) ∧
    (c9Store.refundRecords 1 1).map RefundRecord.reason =
      some .CreatorCancellation ∧
    (c9Store.refundRecords 1 2).map RefundRecord.reason =
      some .CreatorCancellation ∧
    (execute_refund 7 1 604817 c9Store).res = .ok () ∧
    ((execute_refund 7 1 604817 c9Store).store.refundRecords 1 1).map
      RefundRecord.reason = some .MemberVote ∧
    ((execute_refund 7 1 604817 c9Store).store.refundRecords 1 2).map
      RefundRecord.reason = some .MemberVote := by
  refine ⟨reachableFrom_runScript c9Script initialStore, by decide, ⟨_, rfl, by decide,
    by decide, by decide⟩, by decide, by decide, rfl, by decide, by decide⟩

end Ajo
